import Mathlib

/-!
Verification of the middleware pipeline prototype
(`src/examples/v10/lib/middleware.ts`).

The development shallowly embeds the runtime behavior of the TypeScript
source: JS exceptions become `Except JsError`, asynchronous external
collaborators (the zod validator, the context-derivation function) become
state-threading functions `σ → Except JsError (α × σ)` so that the number
of collaborator invocations is observable in the final state, and a
middleware's decision to either call `next(p)` once and pass its output
through (the `middlewareMarker` discipline) or to return a result of its
own without calling `next` is defunctionalized as the sum `MWOutcome`.
-/

set_option autoImplicit false

/-- A thrown JavaScript `Error`, identified by its message. -/
structure JsError where
  message : String
deriving DecidableEq, Repr

/-- The closed set of error-code names of `TRPC_ERROR_CODES_BY_KEY`. -/
inductive ErrorCode
  | PARSE_ERROR
  | BAD_REQUEST
  | INTERNAL_SERVER_ERROR
  | UNAUTHORIZED
  | FORBIDDEN
  | NOT_FOUND
  | METHOD_NOT_SUPPORTED
  | TIMEOUT
  | PRECONDITION_FAILED
  | PAYLOAD_TOO_LARGE
  | CLIENT_CLOSED_REQUEST
deriving DecidableEq, Repr, Fintype

/-- The numeric code table `TRPC_ERROR_CODES_BY_KEY` from the source. -/
def TRPC_ERROR_CODES_BY_KEY : ErrorCode → Int
  | .PARSE_ERROR => -32700
  | .BAD_REQUEST => -32600
  | .INTERNAL_SERVER_ERROR => -32603
  | .UNAUTHORIZED => -32001
  | .FORBIDDEN => -32003
  | .NOT_FOUND => -32004
  | .METHOD_NOT_SUPPORTED => -32005
  | .TIMEOUT => -32008
  | .PRECONDITION_FAILED => -32012
  | .PAYLOAD_TOO_LARGE => -32013
  | .CLIENT_CLOSED_REQUEST => -32099

/-- The `ResultErrorData` shape `{ code, cause? }`; the cause type `C`
varies with the middleware (a zod error, a JS `Error`, ...). -/
structure ResultErrorData (C : Type) where
  code : ErrorCode
  cause : Option C
deriving DecidableEq, Repr

/-- The `Result` union: `ResultSuccess { data }` or
`ResultError { error }`. -/
inductive Result (D C : Type)
  | data (d : D)
  | error (e : ResultErrorData C)
deriving DecidableEq, Repr

/-- The runtime body of the chain builder `middlewares` inside
`pipedResolver`: whatever the arguments (any number of middleware stages
followed by a resolver, here an untyped list), it throws
`new Error('Unimplemented')` and never returns a composed procedure. -/
def middlewares {α β : Type} (_args : List α) : Except JsError β :=
  .error ⟨"Unimplemented"⟩

/-- `pipedResolver` just returns the `middlewares` chain builder. -/
def pipedResolver {α β : Type} (_ : Unit) : List α → Except JsError β :=
  middlewares

/-- Claim C1: every name in the error-code table maps to its fixed
value (PARSE_ERROR = -32700, ..., CLIENT_CLOSED_REQUEST = -32099), the
set of names has exactly these eleven members, and every code is a
negative integer. -/
theorem error_code_table_stable :
    TRPC_ERROR_CODES_BY_KEY .PARSE_ERROR = -32700 ∧
    TRPC_ERROR_CODES_BY_KEY .BAD_REQUEST = -32600 ∧
    TRPC_ERROR_CODES_BY_KEY .INTERNAL_SERVER_ERROR = -32603 ∧
    TRPC_ERROR_CODES_BY_KEY .UNAUTHORIZED = -32001 ∧
    TRPC_ERROR_CODES_BY_KEY .FORBIDDEN = -32003 ∧
    TRPC_ERROR_CODES_BY_KEY .NOT_FOUND = -32004 ∧
    TRPC_ERROR_CODES_BY_KEY .METHOD_NOT_SUPPORTED = -32005 ∧
    TRPC_ERROR_CODES_BY_KEY .TIMEOUT = -32008 ∧
    TRPC_ERROR_CODES_BY_KEY .PRECONDITION_FAILED = -32012 ∧
    TRPC_ERROR_CODES_BY_KEY .PAYLOAD_TOO_LARGE = -32013 ∧
    TRPC_ERROR_CODES_BY_KEY .CLIENT_CLOSED_REQUEST = -32099 ∧
    Fintype.card ErrorCode = 11 ∧
    ∀ c : ErrorCode, TRPC_ERROR_CODES_BY_KEY c < 0 := by
  refine ⟨rfl, rfl, rfl, rfl, rfl, rfl, rfl, rfl, rfl, rfl, rfl, rfl, ?_⟩
  decide

/-- Claim C2: for every argument list, the chain builder returned by
`pipedResolver` throws `Error('Unimplemented')`, hence no composed
procedure value is ever produced. -/
theorem chain_builder_unimplemented {α β : Type} (args : List α) :
    pipedResolver () args = (.error ⟨"Unimplemented"⟩ : Except JsError β) ∧
    ∀ proc : β, pipedResolver () args ≠ .ok proc := by
  refine ⟨rfl, fun proc h => ?_⟩
  exact Except.noConfusion h

/-- Defunctionalized outcome of one middleware invocation. `next p` means
the middleware called its `next` capability exactly once with params `p`
and returned that call's output unchanged (the `middlewareMarker`
discipline forces the pass-through); `result r` means it returned `r` of
its own without ever calling `next`. -/
inductive MWOutcome (NP R : Type)
  | next (p : NP)
  | result (r : R)
deriving DecidableEq, Repr

/-- zod's `SafeParseReturnType`: `{ success: true, data }` or
`{ success: false, error }`. -/
inductive SafeParseReturn (ZErr Out : Type)
  | success (data : Out)
  | failure (error : ZErr)
deriving DecidableEq, Repr

/-- Params as seen by the zod middleware: `ctx`, the optional `rawInput`
it reads, and `extra`, standing for all remaining runtime fields that an
object spread `{...params}` carries along. -/
structure ZodIn (Ctx Raw E : Type) where
  ctx : Ctx
  rawInput : Option Raw
  extra : E
deriving DecidableEq, Repr

/-- The object the zod middleware passes to `next` on success:
`{...params, input: result, _input_in: null, _input_out: null}`. The
spread keeps `ctx`, `rawInput` and all other fields; `input` receives the
whole `SafeParseReturnType` value, and the two phantom fields are set to
`null` (modelled as `Unit`). -/
structure ZodOut (Ctx Raw E ZErr Out : Type) where
  ctx : Ctx
  rawInput : Option Raw
  extra : E
  input : SafeParseReturn ZErr Out
  _input_in : Unit
  _input_out : Unit
deriving DecidableEq, Repr

/-- The `zod` middleware factory's returned `parser` function. The
external validator (`schema.safeParseAsync`) is an asynchronous
collaborator: it threads a world state `σ` (so invocation counts are
observable) and may throw (`Except JsError`). The source awaits it with
no try/catch, so a thrown fault propagates. -/
def zod {Ctx Raw E ZErr Out D σ : Type}
    (validator : Option Raw → σ → Except JsError (SafeParseReturn ZErr Out × σ))
    (params : ZodIn Ctx Raw E) (s : σ) :
    Except JsError (MWOutcome (ZodOut Ctx Raw E ZErr Out) (Result D ZErr) × σ) :=
  match validator params.rawInput s with
  | .error f => .error f
  | .ok (.success d, s') =>
      .ok (.next ⟨params.ctx, params.rawInput, params.extra, .success d, (), ()⟩, s')
  | .ok (.failure e, s') =>
      .ok (.result (.error ⟨.BAD_REQUEST, some e⟩), s')

/-- Concrete validator for the C3 counterexample: accepts any raw input
`r` and returns the transformed value `r + 1`, bumping a call counter. -/
def c3Validator : Option Nat → Nat → Except JsError (SafeParseReturn Unit Nat × Nat) :=
  fun r n => .ok (.success (r.getD 0 + 1), n + 1)

/-- Claim C3 counterexample: on an accepted `rawInput = some 5`, the
params the zod middleware forwards to `next` still contain
`rawInput = some 5` (it is not cleared — the spread keeps it), and
`input` holds the whole validator result object `success 6` rather than
the bare validated value. -/
theorem zod_retains_rawInput :
    @zod Unit Nat Unit Unit Nat Unit Nat c3Validator ⟨(), some 5, ()⟩ 0
      = .ok (.next ⟨(), some 5, (), .success 6, (), ()⟩, 1) ∧
    (some 5 : Option Nat) ≠ none := by
  exact ⟨rfl, by decide⟩

/-- Claim C3 (amended): when the validator accepts `rawInput`, the zod
middleware calls `next` exactly once, forwarding params whose `input` is
the validator's full success result object, whose `rawInput` is preserved
unchanged (not cleared), whose `ctx` and all other incoming fields are
preserved, plus the two `null` phantom fields; the final world state is
the one after the single validator call. -/
theorem zod_success_forwards {Ctx Raw E ZErr Out D σ : Type}
    (validator : Option Raw → σ → Except JsError (SafeParseReturn ZErr Out × σ))
    (p : ZodIn Ctx Raw E) (s s' : σ) (d : Out)
    (h : validator p.rawInput s = .ok (.success d, s')) :
    @zod Ctx Raw E ZErr Out D σ validator p s
      = .ok (.next ⟨p.ctx, p.rawInput, p.extra, .success d, (), ()⟩, s') := by
  unfold zod
  rw [h]

/-- Witness for C3's amended theorem at a concrete accepted input. -/
theorem zod_success_forwards_witness :
    c3Validator (some 7) 0 = .ok (.success 8, 1) ∧
    @zod Unit Nat Unit Unit Nat Unit Nat c3Validator ⟨(), some 7, ()⟩ 0
      = .ok (.next ⟨(), some 7, (), .success 8, (), ()⟩, 1) :=
  ⟨rfl, @zod_success_forwards Unit Nat Unit Unit Nat Unit Nat c3Validator
    ⟨(), some 7, ()⟩ 0 1 8 rfl⟩

/-- Claim C4: when the validator rejects `rawInput`, the zod middleware
never calls `next` (so the resolver and later stages cannot run through
it), returns a `BAD_REQUEST` failure whose `cause` is exactly the
validator's error object, and the final world state is the one after the
single validator call. -/
theorem zod_failure_short_circuits {Ctx Raw E ZErr Out D σ : Type}
    (validator : Option Raw → σ → Except JsError (SafeParseReturn ZErr Out × σ))
    (p : ZodIn Ctx Raw E) (s s' : σ) (e : ZErr)
    (h : validator p.rawInput s = .ok (.failure e, s')) :
    @zod Ctx Raw E ZErr Out D σ validator p s
      = .ok (.result (.error ⟨.BAD_REQUEST, some e⟩), s') := by
  unfold zod
  rw [h]

/-- Rejecting validator for the C4 witness: always fails with error
message "bad", bumping a call counter. -/
def c4Validator : Option Nat → Nat → Except JsError (SafeParseReturn String Nat × Nat) :=
  fun _ n => .ok (.failure "bad", n + 1)

/-- Witness for C4 at a concrete rejected input: the counter shows the
validator ran exactly once and the failure carries its error unchanged. -/
theorem zod_failure_short_circuits_witness :
    c4Validator (some 3) 0 = .ok (.failure "bad", 1) ∧
    @zod Unit Nat Unit String Nat Unit Nat c4Validator ⟨(), some 3, ()⟩ 0
      = .ok (.result (.error ⟨.BAD_REQUEST, some "bad"⟩), 1) :=
  ⟨rfl, @zod_failure_short_circuits Unit Nat Unit String Nat Unit Nat c4Validator
    ⟨(), some 3, ()⟩ 0 1 "bad" rfl⟩

/-- Params as seen by a context-swap middleware: the `ctx` field plus
`rest`, standing for all other runtime fields that the object spread
`{...params}` carries along (rawInput, input, ...). -/
structure SwapIn (Ctx E : Type) where
  ctx : Ctx
  rest : E
deriving DecidableEq, Repr

/-- The context-derivation function's return union:
`{ ctx: NewContext } | { error: TErrorData }`. -/
inductive DeriveOut (NC C : Type)
  | ctx (c : NC)
  | error (e : ResultErrorData C)
deriving DecidableEq, Repr

/-- The middleware produced by `contextSwapper`'s factory. It awaits the
external derivation function `newContext` (state-threading, possibly
throwing; the source has no try/catch around the await). On the `ctx`
branch it calls `next({...params, ctx: result.ctx})`; on the `error`
branch it returns the derivation's failure object itself. -/
def contextSwapper {Ctx E NC C D σ : Type}
    (newContext : SwapIn Ctx E → σ → Except JsError (DeriveOut NC C × σ))
    (params : SwapIn Ctx E) (s : σ) :
    Except JsError (MWOutcome (SwapIn NC E) (Result D C) × σ) :=
  match newContext params s with
  | .error f => .error f
  | .ok (.ctx c, s') => .ok (.next ⟨c, params.rest⟩, s')
  | .ok (.error e, s') => .ok (.result (.error e), s')

/-- Claim C5: on the `ctx` branch of the derivation function, the
context-swap middleware calls `next` exactly once with the incoming
params whose `ctx` is replaced by the derived context and every other
field kept; on the `error` branch it returns that failure directly and
never calls `next`. -/
theorem contextSwapper_branches {Ctx E NC C D σ : Type}
    (newContext : SwapIn Ctx E → σ → Except JsError (DeriveOut NC C × σ))
    (p : SwapIn Ctx E) (s s' : σ) :
    (∀ c : NC, newContext p s = .ok (.ctx c, s') →
      @contextSwapper Ctx E NC C D σ newContext p s = .ok (.next ⟨c, p.rest⟩, s')) ∧
    (∀ e : ResultErrorData C, newContext p s = .ok (.error e, s') →
      @contextSwapper Ctx E NC C D σ newContext p s
        = .ok (.result (.error e), s')) := by
  constructor
  · intro c h
    unfold contextSwapper
    rw [h]
  · intro e h
    unfold contextSwapper
    rw [h]

/-- Concrete derivation function for the C5 witness: swaps a boolean
context for a numeric one when the flag is set, otherwise fails. -/
def c5Derive : SwapIn Bool Unit → Unit → Except JsError (DeriveOut Nat Unit × Unit) :=
  fun p s => if p.ctx then .ok (.ctx 7, s) else .ok (.error ⟨.FORBIDDEN, none⟩, s)

/-- Witness for C5, exercising both branches at concrete inputs. -/
theorem contextSwapper_branches_witness :
    @contextSwapper Bool Unit Nat Unit Unit Unit c5Derive ⟨true, ()⟩ ()
      = .ok (.next ⟨7, ()⟩, ()) ∧
    @contextSwapper Bool Unit Nat Unit Unit Unit c5Derive ⟨false, ()⟩ ()
      = .ok (.result (.error ⟨.FORBIDDEN, none⟩), ()) :=
  ⟨(@contextSwapper_branches Bool Unit Nat Unit Unit Unit c5Derive
      ⟨true, ()⟩ () ()).1 7 rfl,
   (@contextSwapper_branches Bool Unit Nat Unit Unit Unit c5Derive
      ⟨false, ()⟩ () ()).2 ⟨.FORBIDDEN, none⟩ rfl⟩

/-- The app's `TestContext` `{ user?: { id: string } }`. -/
structure User where
  id : String
deriving DecidableEq, Repr

/-- `TestContext` with its optional `user`; `extra` stands for any
additional runtime fields the context object may carry, which the spread
`{...params.ctx}` preserves. The exact source type is `E = Unit`. -/
structure TestContext (E : Type) where
  user : Option User
  extra : E
deriving DecidableEq, Repr

/-- The context after the auth gate: `user` is present (non-optional),
everything else kept by the spread. -/
structure AuthedContext (E : Type) where
  user : User
  extra : E
deriving DecidableEq, Repr

/-- The derivation function passed to `swapContext` by `isAuthed`: no
`user` on the context yields `{error: {code: 'UNAUTHORIZED'}}`, otherwise
`{ctx: {...params.ctx, user: params.ctx.user}}`. -/
def isAuthedDerive {E F C : Type} (params : SwapIn (TestContext E) F) :
    DeriveOut (AuthedContext E) C :=
  match params.ctx.user with
  | none => .error ⟨.UNAUTHORIZED, none⟩
  | some u => .ctx ⟨u, params.ctx.extra⟩

/-- The `isAuthed()` middleware: `contextSwapper` applied to
`isAuthedDerive` (a synchronous derivation that never throws). -/
def isAuthed {E F C D σ : Type} :
    SwapIn (TestContext E) F → σ →
      Except JsError (MWOutcome (SwapIn (AuthedContext E) F) (Result D C) × σ) :=
  contextSwapper (fun p s => .ok (isAuthedDerive p, s))

/-- Claim C6: with no `user` on the incoming context the auth middleware
returns an `UNAUTHORIZED` failure without calling `next` (no downstream
stage or resolver runs through it); with `user = {id: "42"}` it forwards
once and the downstream params carry `ctx.user.id = "42"` with the other
context fields and all non-ctx fields preserved. -/
theorem isAuthed_gate {E F C D σ : Type} (p : SwapIn (TestContext E) F) (s : σ) :
    (p.ctx.user = none →
      @isAuthed E F C D σ p s
        = .ok (.result (.error ⟨.UNAUTHORIZED, none⟩), s)) ∧
    (p.ctx.user = some ⟨"42"⟩ →
      @isAuthed E F C D σ p s
        = .ok (.next ⟨⟨⟨"42"⟩, p.ctx.extra⟩, p.rest⟩, s)) := by
  constructor
  · intro h
    simp [isAuthed, contextSwapper, isAuthedDerive, h]
  · intro h
    simp [isAuthed, contextSwapper, isAuthedDerive, h]

/-- Witness for C6, exercising both the missing-user and the
`user = {id: "42"}` branches at concrete contexts. -/
theorem isAuthed_gate_witness :
    @isAuthed Unit Unit Unit Unit Unit ⟨⟨none, ()⟩, ()⟩ ()
      = .ok (.result (.error ⟨.UNAUTHORIZED, none⟩), ()) ∧
    @isAuthed Unit Unit Unit Unit Unit ⟨⟨some ⟨"42"⟩, ()⟩, ()⟩ ()
      = .ok (.next ⟨⟨⟨"42"⟩, ()⟩, ()⟩, ()) :=
  ⟨(@isAuthed_gate Unit Unit Unit Unit Unit ⟨⟨none, ()⟩, ()⟩ ()).1 rfl,
   (@isAuthed_gate Unit Unit Unit Unit Unit ⟨⟨some ⟨"42"⟩, ()⟩, ()⟩ ()).2 rfl⟩

/-- Derivation function for the C7 counterexample: it throws (models an
external collaborator raising a fault instead of returning a typed
failure). -/
def c7FaultyDerive : SwapIn Unit Unit → Unit → Except JsError (DeriveOut Unit Unit × Unit) :=
  fun _ _ => .error ⟨"boom"⟩

/-- Claim C7 counterexample: when the context-derivation collaborator
throws, the context-swap middleware does not catch or normalize the fault
into a `Failure` — the raw fault escapes the middleware unchanged. -/
theorem contextSwapper_fault_unnormalized :
    @contextSwapper Unit Unit Unit Unit Unit Unit c7FaultyDerive ⟨(), ()⟩ ()
      = .error ⟨"boom"⟩ :=
  rfl

/-- Claim C7 (amended): the middlewares contain no fault handling: a
fault raised by the context-derivation collaborator propagates out of the
context-swap middleware unchanged (it is never normalized into a
`Failure` result); moreover no composed procedure exists at runtime,
since the chain builder itself throws. -/
theorem contextSwapper_fault_propagates {Ctx E NC C D σ : Type}
    (newContext : SwapIn Ctx E → σ → Except JsError (DeriveOut NC C × σ))
    (p : SwapIn Ctx E) (s : σ) (f : JsError)
    (h : newContext p s = .error f) :
    @contextSwapper Ctx E NC C D σ newContext p s = .error f := by
  unfold contextSwapper
  rw [h]

/-- Witness for C7's amended theorem at a concrete throwing
collaborator. -/
theorem contextSwapper_fault_propagates_witness :
    @contextSwapper Unit Unit Unit Unit Nat Unit c7FaultyDerive ⟨(), ()⟩ ()
      = .error ⟨"boom"⟩ :=
  @contextSwapper_fault_propagates Unit Unit Unit Unit Nat Unit c7FaultyDerive
    ⟨(), ()⟩ () ⟨"boom"⟩ rfl

/-- Modelled from the spec: the runtime body of the chain builder is
missing from the source (`middlewares` throws 'Unimplemented'; only its
overload type declarations exist), so the execution algorithm of spec
section 4.3 is modelled here. Under the marker discipline of section 4.2
a stage either forwards (possibly transformed) params downstream and
passes the downstream result through, or fails with an error it
constructed itself. -/
inductive StageStep (P C : Type)
  | forward (p' : P)
  | fail (e : ResultErrorData C)
deriving DecidableEq, Repr

/-- Modelled from the spec: a registered middleware stage, threading the
world state of its external collaborators. -/
def Stage (P C σ : Type) : Type :=
  P → σ → StageStep P C × σ

/-- Modelled from the spec: the terminal resolver. -/
def ResolverFn (P D C σ : Type) : Type :=
  P → σ → Result D C × σ

/-- Modelled from the spec: the cursor-based execution of section 4.3,
instrumented with the list of executed stage positions (the cursor `i`
names the current stage) and a flag telling whether the resolver ran.
On `fail` the recursion stops and the failure is the result at every
level; on `forward` it proceeds to the next stage with the new params. -/
def runFrom {P C D σ : Type} (i : Nat) (stages : List (Stage P C σ))
    (r : ResolverFn P D C σ) (p : P) (s : σ) :
    (Result D C × σ) × List Nat × Bool :=
  match stages with
  | [] => (r p s, [], true)
  | stg :: rest =>
    match stg p s with
    | (.fail e, s') => ((.error e, s'), [i], false)
    | (.forward p', s') =>
      ((runFrom (i + 1) rest r p' s').1,
        i :: (runFrom (i + 1) rest r p' s').2.1,
        (runFrom (i + 1) rest r p' s').2.2)

/-- Modelled from the spec: one invocation of the composed procedure,
starting at cursor 0. -/
def runChain {P C D σ : Type} (stages : List (Stage P C σ))
    (r : ResolverFn P D C σ) (p : P) (s : σ) :
    (Result D C × σ) × List Nat × Bool :=
  runFrom 0 stages r p s

/-- Modelled from the spec: `build(stage_1, ..., stage_n, resolver)`
returns one procedure, the function of the initial params (and the
collaborators' world state) computed by the section 4.3 algorithm. -/
def buildProcedure {P C D σ : Type} (stages : List (Stage P C σ))
    (r : ResolverFn P D C σ) : P → σ → Result D C × σ :=
  fun p s => (runChain stages r p s).1

/-- Params and state after a list of stages all forwarded; `none` when
one of them failed. -/
def threadStages {P C σ : Type} (stages : List (Stage P C σ)) (p : P) (s : σ) :
    Option (P × σ) :=
  match stages with
  | [] => some (p, s)
  | stg :: rest =>
    match stg p s with
    | (.forward p', s') => threadStages rest p' s'
    | (.fail _, _) => none

theorem runFrom_thread {P C D σ : Type} (pre : List (Stage P C σ)) :
    ∀ (i : Nat) (p : P) (s : σ) (p' : P) (s' : σ),
      threadStages pre p s = some (p', s') →
      ∀ (rest : List (Stage P C σ)) (r : ResolverFn P D C σ),
        runFrom i (pre ++ rest) r p s =
          ((runFrom (i + pre.length) rest r p' s').1,
            List.range' i pre.length ++ (runFrom (i + pre.length) rest r p' s').2.1,
            (runFrom (i + pre.length) rest r p' s').2.2) := by
  induction pre with
  | nil =>
    intro i p s p' s' h rest r
    simp [threadStages] at h
    obtain ⟨hp, hs⟩ := h
    subst hp
    subst hs
    simp [List.range']
  | cons stg pre ih =>
    intro i p s p' s' h rest r
    rcases hstep : stg p s with ⟨p₀ | e, s₀⟩
    · simp only [threadStages, hstep] at h
      have harith : i + 1 + pre.length = i + (pre.length + 1) := by omega
      simp only [List.cons_append, List.append_eq, List.length_cons, runFrom, hstep]
      rw [ih (i + 1) p₀ s₀ p' s' h rest r, harith]
      simp [List.range'_succ]
    · simp [threadStages, hstep] at h

theorem runFrom_trace {P C D σ : Type} (stages : List (Stage P C σ)) :
    ∀ (i : Nat) (r : ResolverFn P D C σ) (p : P) (s : σ),
      ∃ k, k ≤ stages.length ∧ (runFrom i stages r p s).2.1 = List.range' i k := by
  induction stages with
  | nil =>
    intro i r p s
    exact ⟨0, Nat.zero_le _, rfl⟩
  | cons stg rest ih =>
    intro i r p s
    rcases hstep : stg p s with ⟨p' | e, s'⟩
    · obtain ⟨k, hk, htr⟩ := ih (i + 1) r p' s'
      refine ⟨k + 1, by simpa using Nat.succ_le_succ hk, ?_⟩
      simp [runFrom, hstep, htr, List.range'_succ]
    · exact ⟨1, by simp, by simp [runFrom, hstep]⟩

/-- Claim C8: if the stages before stage i all forward and stage i
returns a failure without calling `next`, the composed procedure's result
is that failure unchanged (with stage i's final collaborator state), the
executed stages are exactly 0..i (so stages i+1..n never execute), and
the resolver never runs. -/
theorem chain_short_circuit {P C D σ : Type}
    (pre post : List (Stage P C σ)) (stg : Stage P C σ)
    (r : ResolverFn P D C σ) (p p' : P) (s s' s'' : σ) (e : ResultErrorData C)
    (h1 : threadStages pre p s = some (p', s'))
    (h2 : stg p' s' = (.fail e, s'')) :
    runChain (pre ++ stg :: post) r p s
      = ((.error e, s''), List.range (pre.length + 1), false) := by
  unfold runChain
  rw [runFrom_thread pre 0 p s p' s' h1 (stg :: post) r]
  simp [runFrom, h2, List.range_eq_range', List.range'_1_concat]

/-- A forwarding stage for concrete chain runs. -/
def demoForward : Stage Nat Unit Unit :=
  fun p s => (.forward (p + 1), s)

/-- A failing stage for concrete chain runs. -/
def demoFail : Stage Nat Unit Unit :=
  fun _ s => (.fail ⟨.NOT_FOUND, none⟩, s)

/-- A resolver for concrete chain runs. -/
def demoResolver : ResolverFn Nat Nat Unit Unit :=
  fun p s => (.data p, s)

/-- Witness for C8: one forwarding stage, then a failing stage, then one
more stage and the resolver, which never run. -/
theorem chain_short_circuit_witness :
    threadStages [demoForward] 0 () = some (1, ()) ∧
    demoFail 1 () = (.fail ⟨.NOT_FOUND, none⟩, ()) ∧
    runChain ([demoForward] ++ demoFail :: [demoForward]) demoResolver 0 ()
      = ((.error ⟨.NOT_FOUND, none⟩, ()), List.range 2, false) :=
  ⟨rfl, rfl,
    chain_short_circuit [demoForward] [demoForward] demoFail demoResolver
      0 1 () () () ⟨.NOT_FOUND, none⟩ rfl rfl⟩

/-- Claim C9: on any single invocation of a composed procedure, the
executed stage positions contain no duplicate (each registered stage runs
exactly 0 or 1 times), and the number of stage executions plus the
resolver execution is at most the number of registered stages plus
one. -/
theorem chain_single_run {P C D σ : Type} (stages : List (Stage P C σ))
    (r : ResolverFn P D C σ) (p : P) (s : σ) :
    (runChain stages r p s).2.1.Nodup ∧
    (runChain stages r p s).2.1.length
        + (if (runChain stages r p s).2.2 then 1 else 0)
      ≤ stages.length + 1 := by
  obtain ⟨k, hk, htr⟩ := runFrom_trace stages 0 r p s
  have h1 : (runChain stages r p s).2.1 = List.range' 0 k := htr
  constructor
  · rw [h1]
    exact List.nodup_range' 0 k
  · rw [h1]
    simp only [List.length_range']
    cases (runChain stages r p s).2.2 <;> simp <;> omega

/-- Claim C10: the composed procedure is a deterministic function of its
registered stage list, its resolver and its inputs (initial params and
collaborator world state): two builds from the same ordered stages,
invoked with identical inputs under identical collaborator behavior,
yield identical results — no hidden cross-request state. -/
theorem build_deterministic {P C D σ : Type}
    (stages₁ stages₂ : List (Stage P C σ)) (r₁ r₂ : ResolverFn P D C σ)
    (p₁ p₂ : P) (s₁ s₂ : σ)
    (hst : stages₁ = stages₂) (hr : r₁ = r₂) (hp : p₁ = p₂) (hs : s₁ = s₂) :
    buildProcedure stages₁ r₁ p₁ s₁ = buildProcedure stages₂ r₂ p₂ s₂ := by
  subst hst
  subst hr
  subst hp
  subst hs
  rfl

/-- Witness for C10 at a concrete chain, also evaluating the built
procedure on its input. -/
theorem build_deterministic_witness :
    buildProcedure [demoForward] demoResolver 0 ()
      = buildProcedure [demoForward] demoResolver 0 () ∧
    buildProcedure [demoForward] demoResolver 0 () = (.data 1, ()) :=
  ⟨build_deterministic [demoForward] [demoForward] demoResolver demoResolver
      0 0 () () rfl rfl rfl rfl, rfl⟩
